import Mathlib

/-!
Verification of the projectile trajectory solver of the Tactical Scanner API
(`get_trajectory` in `src/app/main.py`), modelled over the real numbers.

The solver reads `target_distance` and `velocity`, computes
`val = (9.81 * d) / v**2`, rejects the request with an HTTP 400 error when
`val` lies outside `[-1, 1]`, and otherwise returns the minimum-energy launch
angle `0.5 * asin(val)` in degrees, the time of flight `2*v*sin(angle)/9.81`,
and a path sampled at `np.linspace(0, T, num=50)`, keeping the samples with
`y >= 0` and rounding every returned number to 2 decimal places at the end.
In Python the division raises `ZeroDivisionError` when `v**2 == 0`, i.e. (over
the reals) when `v = 0`, which we model as a distinct error outcome.
-/

namespace TacticalScanner

/-- A point of the sampled trajectory, as in the entries of `path_points`
in `get_trajectory` (a dict with keys `x` and `y`). -/
structure PathPoint where
  x : ℝ
  y : ℝ

/-- The successful response body of `get_trajectory`:
`path`, `calculated_angle`, `time_of_flight`. -/
structure TrajectorySolution where
  path : List PathPoint
  calculated_angle : ℝ
  time_of_flight : ℝ

/-- Failure outcomes of `get_trajectory`: the explicit
`HTTPException(status_code, detail)` raised by the reachability check, and
Python's `ZeroDivisionError` raised by `(g * d) / (v**2)` when `v**2 == 0`. -/
inductive SolveError where
  | zeroDivisionError
  | httpException (statusCode : ℕ) (detail : String)

/-- Python's `round(x, 2)`: round to 2 decimal places (nearest multiple of
1/100; Python breaks exact ties to even, Mathlib's `round` breaks them
upwards - no exact tie occurs anywhere in this development). -/
noncomputable def round2 (x : ℝ) : ℝ := round (100 * x) / 100

/-- `np.linspace start stop num`: `num` evenly spaced samples over the closed
interval `[start, stop]`, both endpoints included (`num ≥ 2`). -/
noncomputable def linspace (start stop : ℝ) (num : ℕ) : List ℝ :=
  (List.range num).map (fun (i : ℕ) => start + (stop - start) * (i : ℝ) / ((num - 1 : ℕ) : ℝ))

/-- The trajectory solver of `get_trajectory` (`src/app/main.py`), translated
over ℝ.  `g = 9.81`; the argument of `arcsin` is checked against `[-1, 1]`
before any angle or path computation; `math.degrees x = x * 180 / π`. -/
noncomputable def solve (target_distance velocity : ℝ) : Except SolveError TrajectorySolution :=
  let g : ℝ := 9.81
  let v : ℝ := velocity
  let d : ℝ := target_distance
  if v = 0 then Except.error SolveError.zeroDivisionError
  else
    let val : ℝ := g * d / v ^ 2
    if -1 ≤ val ∧ val ≤ 1 then
      let angle_rad : ℝ := 0.5 * Real.arcsin val
      let launch_angle_deg : ℝ := angle_rad * (180 / Real.pi)
      let time_of_flight : ℝ := 2 * v * Real.sin angle_rad / g
      let path_points : List PathPoint :=
        (linspace 0 time_of_flight 50).filterMap (fun t =>
          let x : ℝ := v * Real.cos angle_rad * t
          let y : ℝ := v * Real.sin angle_rad * t - 0.5 * g * t ^ 2
          if 0 ≤ y then some ⟨round2 x, round2 y⟩ else none)
      Except.ok ⟨path_points, round2 launch_angle_deg, round2 time_of_flight⟩
    else
      Except.error (SolveError.httpException 400 "Target is out of range for the given velocity.")

/-- Spec: `val = (g * target_distance) / velocity²` with `g = 9.81`. -/
noncomputable def spec_val (d v : ℝ) : ℝ := 9.81 * d / v ^ 2

/-- Spec: the minimum-energy launch angle `θ = 0.5 * arcsin(val)` (radians). -/
noncomputable def spec_theta (d v : ℝ) : ℝ := 0.5 * Real.arcsin (spec_val d v)

/-- Spec: the launch angle converted to degrees. -/
noncomputable def spec_angle_deg (d v : ℝ) : ℝ := spec_theta d v * (180 / Real.pi)

/-- Spec: the time of flight `T = (2 * velocity * sin θ) / g`. -/
noncomputable def spec_T (d v : ℝ) : ℝ := 2 * v * Real.sin (spec_theta d v) / 9.81

/-- Spec: horizontal displacement `x = velocity * cos(θ) * t`. -/
noncomputable def spec_x (d v t : ℝ) : ℝ := v * Real.cos (spec_theta d v) * t

/-- Spec: height `y = velocity * sin(θ) * t − 0.5 * g * t²`. -/
noncomputable def spec_y (d v t : ℝ) : ℝ := v * Real.sin (spec_theta d v) * t - 0.5 * 9.81 * t ^ 2

/-- Spec: exactly 50 evenly spaced sample times over the closed interval
`[0, T]`, both endpoints included: `t_i = i * T / 49` for `i = 0, …, 49`. -/
noncomputable def spec_sampleTimes (T : ℝ) : List ℝ :=
  (List.range 50).map (fun (i : ℕ) => T * (i : ℝ) / 49)

/-- Spec: the sampled path - for each of the 50 sample times compute `(x, y)`,
keep exactly the samples with `y ≥ 0`, and round both coordinates (to 2 decimal
places) as the final step. -/
noncomputable def spec_path (d v : ℝ) : List PathPoint :=
  (spec_sampleTimes (spec_T d v)).filterMap (fun t =>
    if 0 ≤ spec_y d v t then some ⟨round2 (spec_x d v t), round2 (spec_y d v t)⟩ else none)

theorem solve_eq_ok (d v : ℝ) (hv : v ≠ 0)
    (h1 : -1 ≤ spec_val d v) (h2 : spec_val d v ≤ 1) :
    solve d v =
      Except.ok ⟨spec_path d v, round2 (spec_angle_deg d v), round2 (spec_T d v)⟩ := by
  rw [spec_val] at h1 h2
  simp only [solve]
  rw [if_neg hv, if_pos (show -1 ≤ 9.81 * d / v ^ 2 ∧ 9.81 * d / v ^ 2 ≤ 1 from ⟨h1, h2⟩)]
  refine congrArg Except.ok ?_
  simp only [spec_path, spec_sampleTimes, spec_x, spec_y, spec_T, spec_angle_deg,
    spec_theta, spec_val, linspace]
  congr 1
  refine congrArg _ (List.map_congr_left fun i _ => ?_)
  have h49 : ((50 - 1 : ℕ) : ℝ) = 49 := by norm_num
  rw [h49]
  ring

theorem solve_eq_err (d v : ℝ) (hv : v ≠ 0)
    (h : ¬(-1 ≤ spec_val d v ∧ spec_val d v ≤ 1)) :
    solve d v =
      Except.error (SolveError.httpException 400
        "Target is out of range for the given velocity.") := by
  rw [spec_val] at h
  simp only [solve]
  rw [if_neg hv, if_neg h]

theorem solve_ok_inv (d v : ℝ) (s : TrajectorySolution) (h : solve d v = Except.ok s) :
    v ≠ 0 ∧ (-1 ≤ spec_val d v ∧ spec_val d v ≤ 1) ∧
      s = ⟨spec_path d v, round2 (spec_angle_deg d v), round2 (spec_T d v)⟩ := by
  by_cases hv : v = 0
  · exfalso
    simp only [solve] at h
    rw [if_pos hv] at h
    exact Except.noConfusion h
  · by_cases hrange : -1 ≤ spec_val d v ∧ spec_val d v ≤ 1
    · refine ⟨hv, hrange, ?_⟩
      rw [solve_eq_ok d v hv hrange.1 hrange.2] at h
      exact (Except.ok.inj h).symm
    · exfalso
      rw [solve_eq_err d v hv hrange] at h
      exact Except.noConfusion h

theorem round2_zero : round2 0 = 0 := by
  simp [round2]

theorem round2_mono {x y : ℝ} (h : x ≤ y) : round2 x ≤ round2 y := by
  unfold round2
  have h1 : round (100 * x) ≤ round (100 * y) := by
    rw [round_eq, round_eq]
    exact Int.floor_mono (by linarith)
  have h2 : ((round (100 * x) : ℤ) : ℝ) ≤ ((round (100 * y) : ℤ) : ℝ) := by
    exact_mod_cast h1
  linarith

theorem round2_nonneg {x : ℝ} (h : 0 ≤ x) : 0 ≤ round2 x := by
  have := round2_mono h
  rwa [round2_zero] at this

theorem round2_nonpos {x : ℝ} (h : x ≤ 0) : round2 x ≤ 0 := by
  have := round2_mono h
  rwa [round2_zero] at this

theorem round2_eq_of_bounds (x : ℝ) (n : ℤ) (hlo : (n : ℝ) - 1 / 2 ≤ 100 * x)
    (hhi : 100 * x < (n : ℝ) + 1 / 2) : round2 x = (n : ℝ) / 100 := by
  unfold round2
  rw [round_eq]
  have : ⌊100 * x + 1 / 2⌋ = n := by
    rw [Int.floor_eq_iff]
    constructor
    · linarith
    · linarith
  rw [this]

theorem round2_bounds (x : ℝ) (n m : ℤ) (hlo : (n : ℝ) - 1 / 2 ≤ 100 * x)
    (hhi : 100 * x < (m : ℝ) + 1 / 2) :
    (n : ℝ) / 100 ≤ round2 x ∧ round2 x ≤ (m : ℝ) / 100 := by
  unfold round2
  rw [round_eq]
  have h1 : n ≤ ⌊100 * x + 1 / 2⌋ := Int.le_floor.mpr (by linarith)
  have h2 : ⌊100 * x + 1 / 2⌋ ≤ m := by
    have hf : (⌊100 * x + 1 / 2⌋ : ℝ) ≤ 100 * x + 1 / 2 := Int.floor_le _
    have : (⌊100 * x + 1 / 2⌋ : ℝ) < (m : ℝ) + 1 := by linarith
    exact_mod_cast Int.lt_add_one_iff.mp (by exact_mod_cast this)
  constructor
  · have hc : ((n : ℤ) : ℝ) ≤ ((⌊100 * x + 1 / 2⌋ : ℤ) : ℝ) := by exact_mod_cast h1
    linarith
  · have hc : ((⌊100 * x + 1 / 2⌋ : ℤ) : ℝ) ≤ ((m : ℤ) : ℝ) := by exact_mod_cast h2
    linarith

theorem round2_45 : round2 45 = 45 := by
  have : round2 45 = ((4500 : ℤ) : ℝ) / 100 := by
    refine round2_eq_of_bounds 45 4500 ?_ ?_ <;> norm_num
  rw [this]; norm_num

/-- Rewriting of the path construction: filter on the unrounded `y`, round as
the very last step.  This is the fact that rounding never feeds back into the
retention test or the formulas. -/
theorem filterMap_sample_eq (xf yf : ℝ → ℝ) (l : List ℝ) :
    l.filterMap (fun t =>
        if 0 ≤ yf t then some (PathPoint.mk (round2 (xf t)) (round2 (yf t))) else none) =
      ((l.map (fun t => (xf t, yf t))).filter (fun p => decide (0 ≤ p.2))).map
        (fun p => PathPoint.mk (round2 p.1) (round2 p.2)) := by
  induction l with
  | nil => simp
  | cons a l ih =>
    by_cases h : 0 ≤ yf a <;>
      simp [List.filterMap_cons, List.filter_cons, h, ih]

theorem spec_path_y_nonneg (d v : ℝ) (p : PathPoint) (hp : p ∈ spec_path d v) : 0 ≤ p.y := by
  rw [spec_path] at hp
  obtain ⟨t, _, hsome⟩ := List.mem_filterMap.mp hp
  by_cases hy : 0 ≤ spec_y d v t
  · rw [if_pos hy] at hsome
    obtain rfl := Option.some.inj hsome
    exact round2_nonneg hy
  · rw [if_neg hy] at hsome
    exact Option.noConfusion hsome

theorem spec_path_length_le (d v : ℝ) : (spec_path d v).length ≤ 50 := by
  rw [spec_path]
  have h := List.length_filterMap_le
    (fun t => if 0 ≤ spec_y d v t then
        some (PathPoint.mk (round2 (spec_x d v t)) (round2 (spec_y d v t))) else none)
    (spec_sampleTimes (spec_T d v))
  simpa [spec_sampleTimes] using h

theorem spec_path_head (d v : ℝ) : (spec_path d v).head? = some (PathPoint.mk 0 0) := by
  have hr : List.range 50 = 0 :: List.range' 1 49 := by
    rw [List.range_eq_range']
    decide
  rw [spec_path, spec_sampleTimes, hr]
  simp only [List.map_cons, List.filterMap_cons]
  have ht0 : spec_T d v * ((0 : ℕ) : ℝ) / 49 = 0 := by norm_num
  rw [ht0]
  have hy0 : spec_y d v 0 = 0 := by simp [spec_y]
  have hx0 : spec_x d v 0 = 0 := by simp [spec_x]
  rw [hy0, hx0, if_pos le_rfl, round2_zero, List.head?_cons]

theorem filterMap_replicate_of_some {α β : Type} (f : α → Option β) (a : α) (b : β)
    (h : f a = some b) (n : ℕ) :
    List.filterMap f (List.replicate n a) = List.replicate n b := by
  induction n with
  | zero => simp
  | succ n ih => simp [List.replicate_succ, List.filterMap_cons, h, ih]

/-- Full evaluation of the degenerate call: `solve 0 120` returns angle 0,
time of flight 0 and a path of 50 copies of the origin. -/
theorem solve_zero_eval :
    solve 0 120 = Except.ok ⟨List.replicate 50 (PathPoint.mk 0 0), 0, 0⟩ := by
  have hval : spec_val 0 120 = 0 := by simp [spec_val]
  have hok := solve_eq_ok 0 120 (by norm_num) (by rw [hval]; norm_num) (by rw [hval]; norm_num)
  have htheta : spec_theta 0 120 = 0 := by
    rw [spec_theta, hval, Real.arcsin_zero, mul_zero]
  have hdeg : spec_angle_deg 0 120 = 0 := by
    rw [spec_angle_deg, htheta, zero_mul]
  have hT : spec_T 0 120 = 0 := by
    rw [spec_T, htheta, Real.sin_zero]
    ring
  have htimes : spec_sampleTimes (spec_T 0 120) = List.replicate 50 (0 : ℝ) := by
    rw [spec_sampleTimes, hT]
    have : (fun (i : ℕ) => (0 : ℝ) * (i : ℝ) / 49) = fun (_ : ℕ) => (0 : ℝ) := by
      funext i
      ring
    rw [this, List.map_const']
    simp
  have hpath : spec_path 0 120 = List.replicate 50 (PathPoint.mk 0 0) := by
    rw [spec_path, htimes]
    refine filterMap_replicate_of_some _ _ _ ?_ 50
    have hy0 : spec_y 0 120 0 = 0 := by simp [spec_y]
    have hx0 : spec_x 0 120 0 = 0 := by simp [spec_x]
    rw [hy0, hx0, if_pos le_rfl, round2_zero]
  rw [hok, hpath, hdeg, hT, round2_zero]

theorem spec_angle_deg_bounds (d v : ℝ) (h0 : 0 ≤ spec_val d v) :
    0 ≤ spec_angle_deg d v ∧ spec_angle_deg d v ≤ 45 := by
  have hpi := Real.pi_pos
  have ha0 : 0 ≤ Real.arcsin (spec_val d v) := Real.arcsin_nonneg.mpr h0
  have ha1 : Real.arcsin (spec_val d v) ≤ Real.pi / 2 := Real.arcsin_le_pi_div_two _
  have hth0 : 0 ≤ spec_theta d v := by rw [spec_theta]; linarith
  have hth1 : spec_theta d v ≤ Real.pi / 4 := by rw [spec_theta]; linarith
  have h180 : 0 ≤ 180 / Real.pi := by positivity
  constructor
  · exact mul_nonneg hth0 h180
  · have h45 : Real.pi / 4 * (180 / Real.pi) = 45 := by
      field_simp
      ring
    have := mul_le_mul_of_nonneg_right hth1 h180
    rw [h45] at this
    exact this

/-- Claim C1: with `v ≠ 0`, the call fails with the client-error response
(HTTP 400, detail "Target is out of range for the given velocity.") exactly
when `val = 9.81*d/v²` lies outside the closed interval `[-1, 1]`, and for
every `val` inside it the call returns a `TrajectorySolution`; the check is
the sole precondition, performed before any angle or path computation. -/
theorem C1_reachability (d v : ℝ) (hv : v ≠ 0) :
    (solve d v = Except.error (SolveError.httpException 400
        "Target is out of range for the given velocity.") ↔
      (spec_val d v < -1 ∨ 1 < spec_val d v)) ∧
    ((-1 ≤ spec_val d v ∧ spec_val d v ≤ 1) → ∃ s, solve d v = Except.ok s) := by
  by_cases hrange : -1 ≤ spec_val d v ∧ spec_val d v ≤ 1
  · have hok := solve_eq_ok d v hv hrange.1 hrange.2
    refine ⟨iff_of_false ?_ ?_, fun _ => ⟨_, hok⟩⟩
    · rw [hok]
      exact fun h => Except.noConfusion h
    · rintro (h | h) <;> [linarith [hrange.1]; linarith [hrange.2]]
  · have herr := solve_eq_err d v hv hrange
    refine ⟨iff_of_true herr ?_, fun h => absurd h hrange⟩
    rcases not_and_or.mp hrange with h | h
    · exact Or.inl (not_le.mp h)
    · exact Or.inr (not_le.mp h)

theorem C1_reachability_witness :
    (solve 2000 120 = Except.error (SolveError.httpException 400
        "Target is out of range for the given velocity.") ↔
      (spec_val 2000 120 < -1 ∨ 1 < spec_val 2000 120)) ∧
    ((-1 ≤ spec_val 2000 120 ∧ spec_val 2000 120 ≤ 1) →
      ∃ s, solve 2000 120 = Except.ok s) :=
  C1_reachability 2000 120 (by norm_num)

/-- Claim C2: every successful call returns as `calculated_angle` the
minimum-energy solution `0.5 * arcsin(val)` converted to degrees and rounded
to 2 decimal places as the final step, and for `0 < val ≤ 1` the returned
angle lies in `[0, 45]`. -/
theorem C2_min_energy_angle (d v : ℝ) (s : TrajectorySolution)
    (h : solve d v = Except.ok s) :
    s.calculated_angle = round2 (spec_angle_deg d v) ∧
    (0 < spec_val d v → 0 ≤ s.calculated_angle ∧ s.calculated_angle ≤ 45) := by
  obtain ⟨hv, ⟨h1, h2⟩, rfl⟩ := solve_ok_inv d v s h
  refine ⟨rfl, fun h0 => ?_⟩
  have hb := spec_angle_deg_bounds d v h0.le
  refine ⟨round2_nonneg hb.1, ?_⟩
  have := round2_mono hb.2
  rwa [round2_45] at this

theorem C2_min_energy_angle_witness :
    (TrajectorySolution.mk (List.replicate 50 (PathPoint.mk 0 0)) 0 0).calculated_angle =
        round2 (spec_angle_deg 0 120) ∧
    (0 < spec_val 0 120 →
      0 ≤ (TrajectorySolution.mk (List.replicate 50 (PathPoint.mk 0 0)) 0 0).calculated_angle ∧
      (TrajectorySolution.mk (List.replicate 50 (PathPoint.mk 0 0)) 0 0).calculated_angle ≤ 45) :=
  C2_min_energy_angle 0 120 _ solve_zero_eval

/-- Claim C3: every successful call's path is obtained by sampling exactly 50
evenly spaced times over the closed interval `[0, T]` (both endpoints
included), computing `x = v cos θ t` and `y = v sin θ t − 0.5·9.81·t²`, and
keeping exactly the samples with `y ≥ 0`; hence the path has at most 50
entries. -/
theorem C3_sampling (d v : ℝ) (s : TrajectorySolution) (h : solve d v = Except.ok s) :
    s.path = spec_path d v ∧ s.path.length ≤ 50 := by
  obtain ⟨-, -, rfl⟩ := solve_ok_inv d v s h
  exact ⟨rfl, spec_path_length_le d v⟩

theorem C3_sampling_witness :
    (TrajectorySolution.mk (List.replicate 50 (PathPoint.mk 0 0)) 0 0).path = spec_path 0 120 ∧
    (TrajectorySolution.mk (List.replicate 50 (PathPoint.mk 0 0)) 0 0).path.length ≤ 50 :=
  C3_sampling 0 120 _ solve_zero_eval

/-- Claim C4: every point of every successfully returned path has `y ≥ 0`. -/
theorem C4_path_nonneg (d v : ℝ) (s : TrajectorySolution) (p : PathPoint)
    (h : solve d v = Except.ok s) (hp : p ∈ s.path) : 0 ≤ p.y := by
  obtain ⟨-, -, rfl⟩ := solve_ok_inv d v s h
  exact spec_path_y_nonneg d v p hp

theorem C4_path_nonneg_witness : 0 ≤ (PathPoint.mk 0 0).y :=
  C4_path_nonneg 0 120 _ _ solve_zero_eval (by simp [List.mem_replicate])

/-- Claim C5: all returned numeric fields are the 2-decimal rounding of the
exact derived values, applied as the very last step: the path equals the
unrounded samples, filtered on the unrounded `y ≥ 0`, with rounding applied
only afterwards, and angle/time of flight are roundings of the exact values. -/
theorem C5_rounding_last (d v : ℝ) (s : TrajectorySolution) (h : solve d v = Except.ok s) :
    s.calculated_angle = round2 (spec_angle_deg d v) ∧
    s.time_of_flight = round2 (spec_T d v) ∧
    s.path = (((spec_sampleTimes (spec_T d v)).map
        (fun t => (spec_x d v t, spec_y d v t))).filter
          (fun p => decide (0 ≤ p.2))).map
            (fun p => PathPoint.mk (round2 p.1) (round2 p.2)) := by
  obtain ⟨-, -, rfl⟩ := solve_ok_inv d v s h
  refine ⟨rfl, rfl, ?_⟩
  show spec_path d v = _
  rw [spec_path]
  exact filterMap_sample_eq (spec_x d v) (spec_y d v) _

theorem C5_rounding_last_witness :
    (TrajectorySolution.mk (List.replicate 50 (PathPoint.mk 0 0)) 0 0).calculated_angle =
        round2 (spec_angle_deg 0 120) ∧
    (TrajectorySolution.mk (List.replicate 50 (PathPoint.mk 0 0)) 0 0).time_of_flight =
        round2 (spec_T 0 120) ∧
    (TrajectorySolution.mk (List.replicate 50 (PathPoint.mk 0 0)) 0 0).path =
        (((spec_sampleTimes (spec_T 0 120)).map
          (fun t => (spec_x 0 120 t, spec_y 0 120 t))).filter
            (fun p => decide (0 ≤ p.2))).map
              (fun p => PathPoint.mk (round2 p.1) (round2 p.2)) :=
  C5_rounding_last 0 120 _ solve_zero_eval

/-- Claim C8 is false as stated: `solve 0 120` returns a path with 50 points
(all equal to the origin), not a single-point path and not an empty path. -/
theorem C8_degenerate_counterexample :
    solve 0 120 = Except.ok ⟨List.replicate 50 (PathPoint.mk 0 0), 0, 0⟩ ∧
    (List.replicate 50 (PathPoint.mk 0 0)).length = 50 ∧
    ¬ ((List.replicate 50 (PathPoint.mk 0 0)).length = 1 ∨
       (List.replicate 50 (PathPoint.mk 0 0)).length = 0) := by
  refine ⟨solve_zero_eval, by simp, by simp⟩

/-- Claim C8 (amended): `solve 0 120` yields `val = 0`, `θ = 0`,
`time_of_flight = 0`, and a path of exactly 50 points, every one of them
`(x = 0, y = 0)` - in particular every point is at height `y = 0`. -/
theorem C8_degenerate_amended :
    spec_val 0 120 = 0 ∧ spec_theta 0 120 = 0 ∧
    solve 0 120 = Except.ok ⟨List.replicate 50 (PathPoint.mk 0 0), 0, 0⟩ ∧
    (PathPoint.mk 0 0).y = 0 := by
  have hval : spec_val 0 120 = 0 := by simp [spec_val]
  refine ⟨hval, ?_, solve_zero_eval, rfl⟩
  rw [spec_theta, hval, Real.arcsin_zero, mul_zero]

/-- Claim C9 is false as stated: at `velocity = 0` the division
`(9.81 * d) / v**2` raises `ZeroDivisionError`, a third outcome that is
neither a `TrajectorySolution` nor the `TargetUnreachable` rejection. -/
theorem C9_no_failure_counterexample :
    solve 1 0 = Except.error SolveError.zeroDivisionError ∧
    SolveError.zeroDivisionError ≠ SolveError.httpException 400
      "Target is out of range for the given velocity." := by
  constructor
  · simp [solve]
  · exact fun h => SolveError.noConfusion h

/-- Claim C9 (amended): for every input with `v ≠ 0`, `solve` either returns a
`TrajectorySolution` or fails with the `TargetUnreachable` client error; no
other outcome is possible.  (At `v = 0` Python instead raises
`ZeroDivisionError`.) -/
theorem C9_no_failure_amended (d v : ℝ) (hv : v ≠ 0) :
    (∃ s, solve d v = Except.ok s) ∨
      solve d v = Except.error (SolveError.httpException 400
        "Target is out of range for the given velocity.") := by
  by_cases hrange : -1 ≤ spec_val d v ∧ spec_val d v ≤ 1
  · exact Or.inl ⟨_, solve_eq_ok d v hv hrange.1 hrange.2⟩
  · exact Or.inr (solve_eq_err d v hv hrange)

theorem C9_no_failure_amended_witness :
    (∃ s, solve 1 1 = Except.ok s) ∨
      solve 1 1 = Except.error (SolveError.httpException 400
        "Target is out of range for the given velocity.") :=
  C9_no_failure_amended 1 1 (by norm_num)

/-- Claim C10 (amended): for `v > 0` and `-1 ≤ val < 0` the call succeeds, the
unrounded launch angle (degrees) and time of flight are strictly negative, and
the returned (rounded) `calculated_angle` and `time_of_flight` are `≤ 0`
(they can equal 0 when the magnitudes round to zero). -/
theorem C10_negative_val_amended (d v : ℝ) (hv : 0 < v)
    (h1 : -1 ≤ spec_val d v) (h2 : spec_val d v < 0) :
    ∃ s, solve d v = Except.ok s ∧
      spec_angle_deg d v < 0 ∧ spec_T d v < 0 ∧
      s.calculated_angle ≤ 0 ∧ s.time_of_flight ≤ 0 := by
  have hok := solve_eq_ok d v hv.ne' h1 (by linarith)
  have hpi := Real.pi_pos
  have ha : Real.arcsin (spec_val d v) < 0 := by
    by_contra hc
    push_neg at hc
    exact absurd (Real.arcsin_nonneg.mp hc) (not_le.mpr h2)
  have hth : spec_theta d v < 0 := by rw [spec_theta]; linarith
  have halo : -(Real.pi / 2) ≤ Real.arcsin (spec_val d v) :=
    Real.neg_pi_div_two_le_arcsin _
  have hdeg : spec_angle_deg d v < 0 := by
    rw [spec_angle_deg]
    exact mul_neg_of_neg_of_pos hth (by positivity)
  have hsin : Real.sin (spec_theta d v) < 0 := by
    apply Real.sin_neg_of_neg_of_neg_pi_lt hth
    rw [spec_theta]
    linarith
  have hT : spec_T d v < 0 := by
    rw [spec_T]
    apply div_neg_of_neg_of_pos
    · have h2v : 0 < 2 * v := by linarith
      exact mul_neg_of_pos_of_neg h2v hsin
    · norm_num
  exact ⟨_, hok, hdeg, hT, round2_nonpos hdeg.le, round2_nonpos hT.le⟩

theorem C10_negative_val_amended_witness :
    ∃ s, solve (-1 / 100) 1 = Except.ok s ∧
      spec_angle_deg (-1 / 100) 1 < 0 ∧ spec_T (-1 / 100) 1 < 0 ∧
      s.calculated_angle ≤ 0 ∧ s.time_of_flight ≤ 0 :=
  C10_negative_val_amended (-1 / 100) 1 (by norm_num)
    (by rw [spec_val]; norm_num) (by rw [spec_val]; norm_num)

/-- Claim C6 (amended): for non-negative target distance, every successful
call's path starts at the rounded origin `(0, 0)` and is non-decreasing in
`x` (the samples are taken at non-decreasing times from launch). -/
theorem C6_monotone_amended (d v : ℝ) (s : TrajectorySolution) (hd : 0 ≤ d)
    (h : solve d v = Except.ok s) :
    s.path.head? = some (PathPoint.mk 0 0) ∧
    s.path.Chain' (fun p q => p.x ≤ q.x) := by
  obtain ⟨hv, ⟨h1, h2⟩, rfl⟩ := solve_ok_inv d v s h
  refine ⟨spec_path_head d v, ?_⟩
  show (spec_path d v).Chain' _
  have hpi := Real.pi_pos
  have hval0 : 0 ≤ spec_val d v := by
    rw [spec_val]
    positivity
  have ha0 : 0 ≤ Real.arcsin (spec_val d v) := Real.arcsin_nonneg.mpr hval0
  have ha1 : Real.arcsin (spec_val d v) ≤ Real.pi / 2 := Real.arcsin_le_pi_div_two _
  have hth0 : 0 ≤ spec_theta d v := by rw [spec_theta]; linarith
  have hth1 : spec_theta d v ≤ Real.pi / 2 := by rw [spec_theta]; linarith
  have hcos : 0 ≤ Real.cos (spec_theta d v) :=
    Real.cos_nonneg_of_neg_pi_div_two_le_of_le (by linarith) hth1
  have hsin : 0 ≤ Real.sin (spec_theta d v) :=
    Real.sin_nonneg_of_nonneg_of_le_pi hth0 (by linarith)
  have hc : 0 ≤ v * Real.cos (spec_theta d v) * spec_T d v / 49 := by
    have hrw : v * Real.cos (spec_theta d v) * spec_T d v / 49 =
        2 * v ^ 2 * Real.sin (spec_theta d v) * Real.cos (spec_theta d v) / (49 * 9.81) := by
      rw [spec_T]
      ring
    rw [hrw]
    positivity
  rw [spec_path, filterMap_sample_eq]
  apply List.Pairwise.chain'
  apply List.Pairwise.map
  · intro a b hab
    show round2 a.1 ≤ round2 b.1
    exact round2_mono hab
  refine List.Pairwise.sublist (List.filter_sublist _) ?_
  rw [spec_sampleTimes, List.map_map]
  apply List.Pairwise.map
  · intro i j hij
    show spec_x d v (spec_T d v * (i : ℝ) / 49) ≤ spec_x d v (spec_T d v * (j : ℝ) / 49)
    have hxi : ∀ (k : ℕ), spec_x d v (spec_T d v * (k : ℝ) / 49) =
        v * Real.cos (spec_theta d v) * spec_T d v / 49 * (k : ℝ) := by
      intro k
      rw [spec_x]
      ring
    rw [hxi i, hxi j]
    exact mul_le_mul_of_nonneg_left (Nat.cast_le.mpr hij) hc
  exact List.pairwise_le_range 50

theorem C6_monotone_amended_witness :
    (TrajectorySolution.mk (List.replicate 50 (PathPoint.mk 0 0)) 0 0).path.head? =
        some (PathPoint.mk 0 0) ∧
    (TrajectorySolution.mk (List.replicate 50 (PathPoint.mk 0 0)) 0 0).path.Chain'
        (fun p q => p.x ≤ q.x) :=
  C6_monotone_amended 0 120 _ le_rfl solve_zero_eval

/-- Claim C6 is false as stated: at `target_distance = -9.81`,
`velocity = 9.81` the call succeeds (`val = -1`) but the returned path is not
non-decreasing in `x` - its first point is `(0, 0)` and its second point has
`x = -0.2 < 0`. -/
theorem C6_monotone_counterexample :
    Except.map (fun s => List.Chain' (fun p q => p.x ≤ q.x) s.path) (solve (-9.81) 9.81) =
      Except.ok False := by
  have hval : spec_val (-9.81) 9.81 = -1 := by
    rw [spec_val]
    norm_num
  have hok := solve_eq_ok (-9.81) 9.81 (by norm_num) (by rw [hval]) (by rw [hval]; norm_num)
  have htheta : spec_theta (-9.81) 9.81 = -(Real.pi / 4) := by
    rw [spec_theta, hval, Real.arcsin_neg_one]
    ring
  have h2 : Real.sqrt 2 ^ 2 = 2 := Real.sq_sqrt (by norm_num)
  have hT : spec_T (-9.81) 9.81 = -(Real.sqrt 2) := by
    rw [spec_T, htheta, Real.sin_neg, Real.sin_pi_div_four]
    ring
  have ht0 : spec_T (-9.81) 9.81 * ((0 : ℕ) : ℝ) / 49 = 0 := by
    push_cast
    ring
  have ht1 : spec_T (-9.81) 9.81 * ((1 : ℕ) : ℝ) / 49 = -(Real.sqrt 2) / 49 := by
    rw [hT]
    push_cast
    ring
  have hy0 : spec_y (-9.81) 9.81 0 = 0 := by simp [spec_y]
  have hx0 : spec_x (-9.81) 9.81 0 = 0 := by simp [spec_x]
  have hy1 : spec_y (-9.81) 9.81 (-(Real.sqrt 2) / 49) = 47088 / 240100 := by
    rw [spec_y, htheta, Real.sin_neg, Real.sin_pi_div_four]
    linear_combination (47088 / 480200 : ℝ) * h2
  have hx1 : spec_x (-9.81) 9.81 (-(Real.sqrt 2) / 49) = -981 / 4900 := by
    rw [spec_x, htheta, Real.cos_neg, Real.cos_pi_div_four]
    linear_combination (-(981 / 9800) : ℝ) * h2
  have hry1 : round2 (47088 / 240100 : ℝ) = 1 / 5 := by
    have hb := round2_eq_of_bounds (47088 / 240100 : ℝ) 20 (by norm_num) (by norm_num)
    rw [hb]
    norm_num
  have hrx1 : round2 (-981 / 4900 : ℝ) = -(1 / 5) := by
    have hb := round2_eq_of_bounds (-981 / 4900 : ℝ) (-20) (by norm_num) (by norm_num)
    rw [hb]
    norm_num
  have hr2 : List.range 50 = 0 :: 1 :: List.range' 2 48 := by
    rw [List.range_eq_range']
    decide
  have happ0 : (if 0 ≤ spec_y (-9.81) 9.81 (0 : ℝ) then
      some (PathPoint.mk (round2 (spec_x (-9.81) 9.81 (0 : ℝ)))
        (round2 (spec_y (-9.81) 9.81 (0 : ℝ)))) else none) = some (PathPoint.mk 0 0) := by
    rw [hy0, hx0, if_pos le_rfl, round2_zero]
  have happ1 : (if 0 ≤ spec_y (-9.81) 9.81 (-(Real.sqrt 2) / 49) then
      some (PathPoint.mk (round2 (spec_x (-9.81) 9.81 (-(Real.sqrt 2) / 49)))
        (round2 (spec_y (-9.81) 9.81 (-(Real.sqrt 2) / 49)))) else none) =
      some (PathPoint.mk (-(1 / 5)) (1 / 5)) := by
    rw [hy1, hx1, if_pos (by norm_num : (0 : ℝ) ≤ 47088 / 240100), hrx1, hry1]
  rw [hok]
  show Except.ok _ = Except.ok False
  refine congrArg Except.ok ?_
  refine eq_false ?_
  intro hchain
  rw [spec_path, spec_sampleTimes, hr2] at hchain
  simp only [List.map_cons, ht0, ht1] at hchain
  simp only [List.filterMap_cons, happ0, happ1] at hchain
  obtain ⟨hle, -⟩ := List.chain'_cons.mp hchain
  have hle' : (0 : ℝ) ≤ -(1 / 5) := hle
  norm_num at hle'

/-- Claim C10 is false as stated: at `target_distance = -1/981000`,
`velocity = 1` we have `val = -1/100000 ∈ [-1, 0)` and the call succeeds, but
the returned `calculated_angle` and `time_of_flight` are both `0` after
rounding - not negative. -/
theorem C10_negative_val_counterexample :
    Except.map (fun s => (s.calculated_angle, s.time_of_flight)) (solve (-(1 / 981000)) 1) =
      Except.ok ((0 : ℝ), (0 : ℝ)) ∧ ¬ ((0 : ℝ) < 0) := by
  have hval : spec_val (-(1 / 981000)) 1 = -(1 / 100000) := by
    rw [spec_val]
    norm_num
  have hok := solve_eq_ok (-(1 / 981000)) 1 (by norm_num)
    (by rw [hval]; norm_num) (by rw [hval]; norm_num)
  have hpi_lo := Real.pi_gt_d6
  have hpi_hi := Real.pi_lt_d6
  have ha_pos : 0 < Real.arcsin (1 / 100000) := Real.arcsin_pos.mpr (by norm_num)
  have ha_hi : Real.arcsin (1 / 100000) < 2 / 100000 := by
    have hmem_x : (1 / 100000 : ℝ) ∈ Set.Icc (-1 : ℝ) 1 := by
      constructor <;> norm_num
    have hmem_y : (2 / 100000 : ℝ) ∈ Set.Icc (-(Real.pi / 2)) (Real.pi / 2) := by
      constructor <;> nlinarith
    refine (Real.arcsin_lt_iff_lt_sin hmem_x hmem_y).mpr ?_
    have hcube := Real.sin_gt_sub_cube (show (0 : ℝ) < 2 / 100000 by norm_num)
      (show (2 / 100000 : ℝ) ≤ 1 by norm_num)
    nlinarith
  have harcneg : Real.arcsin (-(1 / 100000)) = -Real.arcsin (1 / 100000) :=
    Real.arcsin_neg (1 / 100000)
  have htheta_lo : -(1 / 100000) < spec_theta (-(1 / 981000)) 1 := by
    rw [spec_theta, hval, harcneg]
    linarith
  have htheta_hi : spec_theta (-(1 / 981000)) 1 < 0 := by
    rw [spec_theta, hval, harcneg]
    linarith
  have hsin_hi : Real.sin (spec_theta (-(1 / 981000)) 1) < 0 := by
    apply Real.sin_neg_of_neg_of_neg_pi_lt htheta_hi
    nlinarith
  have hsin_lo : spec_theta (-(1 / 981000)) 1 < Real.sin (spec_theta (-(1 / 981000)) 1) := by
    have hpos : 0 < -spec_theta (-(1 / 981000)) 1 := by linarith
    have := Real.sin_lt hpos
    rw [Real.sin_neg] at this
    linarith
  have hT_hi : spec_T (-(1 / 981000)) 1 ≤ 0 := by
    rw [spec_T]
    have h1 : 2 * 1 * Real.sin (spec_theta (-(1 / 981000)) 1) ≤ 0 := by linarith
    have h2 : (0 : ℝ) < 9.81 := by norm_num
    exact div_nonpos_of_nonpos_of_nonneg h1 (by norm_num)
  have hT_lo : -(1 / 100000) < spec_T (-(1 / 981000)) 1 := by
    rw [spec_T]
    have h1 : -(1 / 100000) < Real.sin (spec_theta (-(1 / 981000)) 1) := by linarith
    rw [show (9.81 : ℝ) = 981 / 100 from by norm_num,
      lt_div_iff₀ (by norm_num : (0 : ℝ) < 981 / 100)]
    linarith
  have h180pos : 0 < 180 / Real.pi := by positivity
  have hdeg_hi : spec_angle_deg (-(1 / 981000)) 1 ≤ 0 := by
    rw [spec_angle_deg]
    exact mul_nonpos_of_nonpos_of_nonneg htheta_hi.le h180pos.le
  have hdeg_lo : -(1 / 1000) < spec_angle_deg (-(1 / 981000)) 1 := by
    rw [spec_angle_deg]
    have hstep : -(1 / 100000) * (180 / Real.pi) <
        spec_theta (-(1 / 981000)) 1 * (180 / Real.pi) :=
      mul_lt_mul_of_pos_right htheta_lo h180pos
    have hfrac : 180 / Real.pi < 58 := by
      rw [div_lt_iff₀ (by positivity)]
      nlinarith
    nlinarith
  have hround_deg : round2 (spec_angle_deg (-(1 / 981000)) 1) = 0 := by
    have hb := round2_eq_of_bounds (spec_angle_deg (-(1 / 981000)) 1) 0
      (by push_cast; nlinarith) (by push_cast; nlinarith)
    rw [hb]
    norm_num
  have hround_T : round2 (spec_T (-(1 / 981000)) 1) = 0 := by
    have hb := round2_eq_of_bounds (spec_T (-(1 / 981000)) 1) 0
      (by push_cast; nlinarith) (by push_cast; nlinarith)
    rw [hb]
    norm_num
  constructor
  · rw [hok]
    simp only [Except.map]
    rw [hround_deg, hround_T]
  · exact lt_irrefl 0

/-- Half-angle identity: for `0 ≤ val ≤ 1` the sine of the launch angle has
the closed form `sin(arcsin(val)/2) = √((1 − √(1 − val²)) / 2)`. -/
theorem sin_spec_theta (d v : ℝ) (h0 : 0 ≤ spec_val d v) :
    Real.sin (spec_theta d v) =
      Real.sqrt ((1 - Real.sqrt (1 - spec_val d v ^ 2)) / 2) := by
  have hpi := Real.pi_pos
  have ha0 : 0 ≤ Real.arcsin (spec_val d v) := Real.arcsin_nonneg.mpr h0
  have ha1 : Real.arcsin (spec_val d v) ≤ Real.pi / 2 := Real.arcsin_le_pi_div_two _
  have hth : spec_theta d v = Real.arcsin (spec_val d v) / 2 := by
    rw [spec_theta]
    ring
  have hsin0 : 0 ≤ Real.sin (spec_theta d v) := by
    apply Real.sin_nonneg_of_nonneg_of_le_pi
    · rw [hth]
      linarith
    · rw [hth]
      linarith
  have hsq : Real.sin (spec_theta d v) ^ 2 = (1 - Real.sqrt (1 - spec_val d v ^ 2)) / 2 := by
    rw [hth, Real.sin_sq_eq_half_sub,
      show 2 * (Real.arcsin (spec_val d v) / 2) = Real.arcsin (spec_val d v) from by ring,
      Real.cos_arcsin]
    ring
  rw [← hsq, Real.sqrt_sq hsin0]

theorem spec_T_500_120_round : round2 (spec_T 500 120) = 423 / 100 := by
  have hval : spec_val 500 120 = 109 / 320 := by
    rw [spec_val]
    norm_num
  have hs := sin_spec_theta 500 120 (by rw [hval]; norm_num)
  rw [hval] at hs
  rw [show (1 : ℝ) - (109 / 320) ^ 2 = 90519 / 102400 from by norm_num] at hs
  have hB_lo : (94019 / 100000 : ℝ) < Real.sqrt (90519 / 102400) := by
    apply (Real.lt_sqrt (by norm_num)).mpr
    norm_num
  have hB_hi : Real.sqrt (90519 / 102400) < 9402 / 10000 := by
    apply (Real.sqrt_lt' (by norm_num)).mpr
    norm_num
  have hS_lo : (17291 / 100000 : ℝ) < Real.sin (spec_theta 500 120) := by
    rw [hs]
    apply (Real.lt_sqrt (by norm_num)).mpr
    nlinarith [hB_hi]
  have hS_hi : Real.sin (spec_theta 500 120) < 17294 / 100000 := by
    rw [hs]
    apply (Real.sqrt_lt' (by norm_num)).mpr
    nlinarith [hB_lo]
  have hT_lo : (4225 / 1000 : ℝ) ≤ spec_T 500 120 := by
    rw [spec_T, show (9.81 : ℝ) = 981 / 100 from by norm_num,
      le_div_iff₀ (by norm_num : (0 : ℝ) < 981 / 100)]
    nlinarith [hS_lo]
  have hT_hi : spec_T 500 120 < 4235 / 1000 := by
    rw [spec_T, show (9.81 : ℝ) = 981 / 100 from by norm_num,
      div_lt_iff₀ (by norm_num : (0 : ℝ) < 981 / 100)]
    nlinarith [hS_hi]
  have hb := round2_eq_of_bounds (spec_T 500 120) 423
    (by push_cast; linarith) (by push_cast; linarith)
  rw [hb]
  norm_num

theorem spec_angle_500_120_bounds :
    99 / 10 ≤ round2 (spec_angle_deg 500 120) ∧ round2 (spec_angle_deg 500 120) ≤ 10 := by
  have hval : spec_val 500 120 = 109 / 320 := by
    rw [spec_val]
    norm_num
  have hpi_lo := Real.pi_gt_d6
  have hpi_hi := Real.pi_lt_d6
  have habs1 : |(3456 / 10000 : ℝ)| = 3456 / 10000 := abs_of_pos (by norm_num)
  have habs2 : |(349 / 1000 : ℝ)| = 349 / 1000 := abs_of_pos (by norm_num)
  have ha_lo : (3456 / 10000 : ℝ) < Real.arcsin (109 / 320) := by
    refine (Real.lt_arcsin_iff_sin_lt ?_ ?_).mpr ?_
    · constructor <;> nlinarith
    · constructor <;> norm_num
    · have hb := Real.sin_bound (show |(3456 / 10000 : ℝ)| ≤ 1 from by rw [habs1]; norm_num)
      rw [habs1] at hb
      have hb2 := (abs_le.mp hb).2
      have hconst : (3456 / 10000 : ℝ) - (3456 / 10000) ^ 3 / 6 +
          (3456 / 10000) ^ 4 * (5 / 96) < 109 / 320 := by norm_num
      linarith
  have ha_hi : Real.arcsin (109 / 320) < 349 / 1000 := by
    refine (Real.arcsin_lt_iff_lt_sin ?_ ?_).mpr ?_
    · constructor <;> norm_num
    · constructor <;> nlinarith
    · have hb := Real.sin_bound (show |(349 / 1000 : ℝ)| ≤ 1 from by rw [habs2]; norm_num)
      rw [habs2] at hb
      have hb1 := (abs_le.mp hb).1
      have hconst : (109 / 320 : ℝ) < 349 / 1000 - (349 / 1000) ^ 3 / 6 -
          (349 / 1000) ^ 4 * (5 / 96) := by norm_num
      linarith
  have hform : spec_angle_deg 500 120 = 90 * Real.arcsin (109 / 320) / Real.pi := by
    rw [spec_angle_deg, spec_theta, hval]
    ring
  have hdeg_lo : (9895 / 1000 : ℝ) ≤ spec_angle_deg 500 120 := by
    rw [hform, le_div_iff₀ Real.pi_pos]
    nlinarith
  have hdeg_hi : spec_angle_deg 500 120 < 10005 / 1000 := by
    rw [hform, div_lt_iff₀ Real.pi_pos]
    nlinarith
  have hb := round2_bounds (spec_angle_deg 500 120) 990 1000
    (by push_cast; linarith) (by push_cast; linarith)
  have h1 := hb.1
  have h2 := hb.2
  push_cast at h1 h2
  constructor <;> linarith

/-- Claim C7 is false as stated: `solve 500 120` succeeds but returns
`time_of_flight = 4.23`, which is not approximately `4.14` (the difference is
`0.09`, far beyond the two-decimal rounding tolerance). -/
theorem C7_scenario1_counterexample :
    Except.map (fun s => s.time_of_flight) (solve 500 120) = Except.ok (423 / 100 : ℝ) ∧
    ¬ (|(423 / 100 : ℝ) - 414 / 100| ≤ 1 / 200) := by
  have hval : spec_val 500 120 = 109 / 320 := by
    rw [spec_val]
    norm_num
  have hok := solve_eq_ok 500 120 (by norm_num) (by rw [hval]; norm_num) (by rw [hval]; norm_num)
  constructor
  · rw [hok]
    simp only [Except.map]
    rw [spec_T_500_120_round]
  · rw [abs_of_nonneg (by norm_num : (0 : ℝ) ≤ 423 / 100 - 414 / 100)]
    norm_num

/-- Claim C7 (amended): `solve 500 120` succeeds with `val = 109/320 =
0.340625 ≈ 0.3406`; the returned `calculated_angle` is the rounding of
`degrees(0.5·arcsin val) ≈ 9.9575` and lies in `[9.9, 10]` (so it is `9.96`,
not `9.97`); `time_of_flight = 4.23` (not `≈ 4.14`); the first path point is
`(0, 0)`; and the last retained path point has `y ≥ 0`. -/
theorem C7_scenario1_amended :
    ∃ s, solve 500 120 = Except.ok s ∧
      spec_val 500 120 = 109 / 320 ∧
      s.calculated_angle = round2 (spec_angle_deg 500 120) ∧
      99 / 10 ≤ s.calculated_angle ∧ s.calculated_angle ≤ 10 ∧
      s.time_of_flight = 423 / 100 ∧
      s.path.head? = some (PathPoint.mk 0 0) ∧
      ∃ q, s.path.getLast? = some q ∧ 0 ≤ q.y := by
  have hval : spec_val 500 120 = 109 / 320 := by
    rw [spec_val]
    norm_num
  have hok := solve_eq_ok 500 120 (by norm_num) (by rw [hval]; norm_num) (by rw [hval]; norm_num)
  have hne : spec_path 500 120 ≠ [] := by
    intro hnil
    have hh := spec_path_head 500 120
    rw [hnil] at hh
    exact Option.noConfusion hh
  refine ⟨_, hok, hval, rfl, ?_, ?_, ?_, spec_path_head 500 120, ?_⟩
  · exact spec_angle_500_120_bounds.1
  · exact spec_angle_500_120_bounds.2
  · exact spec_T_500_120_round
  · refine ⟨(spec_path 500 120).getLast hne, ?_, ?_⟩
    · exact List.getLast?_eq_getLast_of_ne_nil hne
    · exact spec_path_y_nonneg 500 120 _ (List.getLast_mem hne)

end TacticalScanner
